import Mathlib

/-!
Verification development for the pycaret base-experiment state container
(`pycaret/internal/pycaret_experiment/pycaret_experiment.py`).

The embedding models:
* tabular data (`DF`, `Series`) with pandas-like row selection by label,
  column dropping and column-wise concatenation;
* the experiment state (`Experiment`) with its derived-view accessors
  (`dataset`, `train`, `test`, `X`, `y`, `X_train`, `X_test`, `y_train`,
  `y_test` and the `_transformed` variants), returning `Except PyError`
  so that Python exceptions are explicit values;
* the configuration registry (`get_config` / `set_config`);
* the state-capture / restore protocol (`getstate`, `load_experiment_state`).

Machine values in cells are modelled as `Int`.  Pandas label lookup that
would raise `KeyError` on a missing label is modelled totally (missing
labels are skipped); the theorems therefore carry explicit presence
hypotheses where row counts matter.
-/

/-- A pandas Series: a named sequence of (row label, value) pairs. -/
structure Series where
  name : String
  entries : List (Nat × Int)
deriving DecidableEq, Repr

/-- A pandas DataFrame: named columns and rows of (label, values) with the
values positionally aligned with the column list. -/
structure DF where
  cols : List String
  rows : List (Nat × List Int)
deriving DecidableEq, Repr

/-- Keep only the columns satisfying the predicate (and the matching value
positions in every row), as in `data[[c for c in data.columns if ...]]`. -/
def DF.filterCols (df : DF) (p : String → Bool) : DF :=
  ⟨df.cols.filter p,
   df.rows.map (fun r => (r.1, ((df.cols.zip r.2).filter (fun cv => p cv.1)).map Prod.snd))⟩

/-- Drop every column with the given name, as in `df.drop(c, axis=1)`. -/
def DF.dropCol (df : DF) (c : String) : DF :=
  df.filterCols (fun x => ! (x == c))

/-- Row selection by a list of labels, as in `df.loc[idx, :]`: one output row
per requested label, looked up by label.  (pandas raises `KeyError` on a
missing label; here missing labels are skipped, and the theorems carry
presence hypotheses.) -/
def DF.locRows (df : DF) (idx : List Nat) : DF :=
  ⟨df.cols, idx.filterMap (fun l => df.rows.find? (fun r => r.1 == l))⟩

/-- Label selection on a Series, as in `s.loc[idx]`. -/
def Series.locEntries (s : Series) (idx : List Nat) : Series :=
  ⟨s.name, idx.filterMap (fun l => s.entries.find? (fun p => p.1 == l))⟩

/-- Value of the cell of column `c` in a row with values `vs` (0 when the
column is absent; claims only use it with the column present). -/
def lookupVal (cols : List String) (vs : List Int) (c : String) : Int :=
  (((cols.zip vs).find? (fun p => p.1 == c)).map Prod.snd).getD 0

/-- Single-column extraction, as in `df[c]`: a Series over the same labels. -/
def DF.getCol (df : DF) (c : String) : Series :=
  ⟨c, df.rows.map (fun r => (r.1, lookupVal df.cols r.2 c))⟩

/-- pandas `DataFrame.empty`: true when either axis has length zero. -/
def DF.empty (df : DF) : Bool :=
  df.rows.isEmpty || df.cols.isEmpty

/-- First row with the given label, values only. -/
def DF.findRow (df : DF) (l : Nat) : Option (List Int) :=
  (df.rows.find? (fun r => r.1 == l)).map Prod.snd

/-- Column-wise concatenation (`pd.concat([a, b], axis=1)`), aligning the
rows of `b` to the labels of `a` (the call sites concatenate outputs that
share one row index). -/
def DF.concatCols (a b : DF) : DF :=
  ⟨a.cols ++ b.cols, a.rows.map (fun r => (r.1, r.2 ++ (b.findRow r.1).getD []))⟩

/-- A Series as a single-column DataFrame (how `pd.concat` treats a Series). -/
def Series.toDF (s : Series) : DF :=
  ⟨[s.name], s.entries.map (fun p => (p.1, [p.2]))⟩

/-- `pd.concat([X2, y2], axis=1)` over the optional transformed parts (only
the both-present case is exercised by the supervised branch). -/
def concatXy : Option DF → Option Series → Option DF
  | some X0, some y0 => some (X0.concatCols y0.toDF)
  | some X0, none => some X0
  | none, some y0 => some y0.toDF
  | none, none => none

/-- `pd.concat([y2, X2], axis=1)` as used by the time-series composite views
(`y` output first, then the optional `X` output). -/
def concatTS (y0 : Series) (X0 : Option DF) : DF :=
  match X0 with
  | some Xd => y0.toDF.concatCols Xd
  | none => y0.toDF

/-- Python exception classes raised by the modelled code paths. -/
inductive PyError where
  | runtimeError (msg : String)
  | attributeError (msg : String)
  | valueError (msg : String)
  | keyError (msg : String)
  | typeError (msg : String)
  | indexError (msg : String)
deriving DecidableEq, Repr

/-- The `MLUsecase` enum from `pycaret.utils.generic` (only the tags the
accessor branches compare against matter). -/
inductive MLUsecase where
  | classification
  | regression
  | clustering
  | anomaly
  | time_series
deriving DecidableEq, Repr

/-- The two result shapes of the time-series helper and the shape-dispatched
non-time-series pipeline output. -/
inductive TOut where
  | pairXY (Xp : DF) (yp : Series)
  | onlyX (Xp : DF)
  | onlyY (yp : Series)
  | pyNone
deriving Repr

/-- The preprocessing pipeline, an external collaborator: abstract transform
functions for each input shape, plus the dual-output time-series transform. -/
structure Pipeline where
  transformBoth : DF → Series → Bool → DF × Series
  transformOnlyX : DF → Bool → DF
  transformOnlyY : Series → Series
  dual : Option Series → Option DF → Series × Option DF

/-- Modelled from the spec: the external contract of `Pipeline.transform`
(section 6) accepts any combination of X and y present or absent and returns
correspondingly shaped outputs (a pair when both are given, the single
transformed object when one is given, and None when neither is given). -/
def Pipeline.transform (p : Pipeline) (Xv : Option DF) (yv : Option Series) (fto : Bool) : TOut :=
  match Xv, yv with
  | some X0, some y0 =>
    let r := p.transformBoth X0 y0 fto
    TOut.pairXY r.1 r.2
  | some X0, none => TOut.onlyX (p.transformOnlyX X0 fto)
  | none, some y0 => TOut.onlyY (p.transformOnlyY y0)
  | none, none => TOut.pyNone

/-- Modelled from the spec: the helper `_pipeline_transform` (imported from
`pycaret.utils.time_series.forecasting.pipeline`, whose source is not part of
this snapshot) runs a dual-output pipeline transform and returns the pair
`(y2, X2)` with the transformed target first. -/
def pipeline_transform (p : Pipeline) (yv : Option Series) (Xv : Option DF) : Series × Option DF :=
  p.dual yv Xv

/-- Python subscript `[0]` on a pipeline result expected to be a pair whose
first component is the transformed X (subscripting a non-tuple result raises,
as subscripting a DataFrame or Series by an int label does). -/
def TOut.sub0 : TOut → Except PyError (Option DF)
  | .pairXY Xp _ => .ok (some Xp)
  | .onlyX _ => .error (.keyError "0")
  | .onlyY _ => .error (.keyError "0")
  | .pyNone => .error (.typeError "NoneType object is not subscriptable")

/-- Python subscript `[1]` on a pipeline result expected to be a pair whose
second component is the transformed y. -/
def TOut.sub1 : TOut → Except PyError (Option Series)
  | .pairXY _ yp => .ok (some yp)
  | .onlyX _ => .error (.keyError "1")
  | .onlyY _ => .error (.keyError "1")
  | .pyNone => .error (.typeError "NoneType object is not subscriptable")

/-- A pipeline result returned directly by a caller expecting an X-shaped
value (pair and y-only shapes are unreachable at those call sites). -/
def TOut.asXView : TOut → Except PyError (Option DF)
  | .pairXY Xp _ => .ok (some Xp)
  | .onlyX Xp => .ok (some Xp)
  | .onlyY _ => .error (.typeError "unexpected pipeline output shape")
  | .pyNone => .ok none

/-- A pipeline result returned directly by a caller expecting a y-shaped
value (pair and X-only shapes are unreachable at those call sites). -/
def TOut.asYView : TOut → Except PyError (Option Series)
  | .pairXY _ yp => .ok (some yp)
  | .onlyX _ => .error (.typeError "unexpected pipeline output shape")
  | .onlyY yp => .ok (some yp)
  | .pyNone => .ok none

/-- The `_PyCaretExperiment` instance state read by the derived views.
`data`, `pipeline` and `ml_usecase` are `Option`s because `__init__` sets
them to None; `pipeline_fully_trained` and `fe_exogenous` are attributes set
by the time-series subclass setup (None when absent). -/
structure Experiment where
  ml_usecase : Option MLUsecase
  data : Option DF
  target_param : Option String
  idx : List (List Nat)
  fxs_ignore : List String
  fe_exogenous : Option Unit
  pipeline : Option Pipeline
  pipeline_fully_trained : Option Pipeline
  setup_ran : Bool

/-- Python truthiness of `self.target_param` (None and the empty string are
falsy). -/
def targetTruthy (t : Option String) : Bool :=
  match t with
  | some s => ! (s == "")
  | none => false

/-- The target name when `self.target_param` is truthy. -/
def targetIfTruthy (t : Option String) : Option String :=
  match t with
  | some s => if s == "" then none else some s
  | none => none

/-- `_check_setup_ran`: raises `RuntimeError` when setup has not been run. -/
def check_setup_ran (e : Experiment) : Except PyError Unit :=
  if ! e.setup_ran then
    .error (.runtimeError "This function requires the users to run setup first.")
  else
    .ok ()

/-- Accessing `self.data.columns` when `self.data` is None raises
`AttributeError`; otherwise the raw table. -/
def getData (e : Experiment) : Except PyError DF :=
  match e.data with
  | some d => .ok d
  | none => .error (.attributeError "NoneType object has no attribute columns")

/-- `self.idx[i]` (IndexError when the list is too short). -/
def getIdx (e : Experiment) (i : Nat) : Except PyError (List Nat) :=
  match e.idx.get? i with
  | some l => .ok l
  | none => .error (.indexError "list index out of range")

/-- `self.pipeline.transform` when `self.pipeline` is None raises
`AttributeError`; otherwise the train-fitted pipeline. -/
def getPipeline (e : Experiment) : Except PyError Pipeline :=
  match e.pipeline with
  | some p => .ok p
  | none => .error (.attributeError "NoneType object has no attribute transform")

/-- The fully-trained pipeline attribute set by the time-series setup. -/
def getPipelineFullyTrained (e : Experiment) : Except PyError Pipeline :=
  match e.pipeline_fully_trained with
  | some p => .ok p
  | none => .error (.attributeError "object has no attribute pipeline fully trained")

/-- `df.drop(self.target_param, axis=1)` with the target passed
unconditionally (pandas raises when no label is given). -/
def dropTarget (ds : DF) (t : Option String) : Except PyError DF :=
  match t with
  | some c => .ok (ds.dropCol c)
  | none => .error (.valueError "need to specify labels to drop")

/-- The `dataset` view: the raw data without the Ignore-tagged columns. -/
def dataset (e : Experiment) : Except PyError DF := do
  let d ← getData e
  .ok (d.filterCols (fun c => ! e.fxs_ignore.contains c))

/-- The `train` view: `dataset.loc[idx[0], :]`. -/
def train (e : Experiment) : Except PyError DF := do
  let ds ← dataset e
  let i0 ← getIdx e 0
  .ok (ds.locRows i0)

/-- The `test` view: both branches return `dataset.loc[idx[1], :]` (the
time-series branch deliberately uses the y-test indices, not the expanded
X-test indices). -/
def test (e : Experiment) : Except PyError DF := do
  let ds ← dataset e
  let i1 ← getIdx e 1
  if e.ml_usecase ≠ some MLUsecase.time_series then
    .ok (ds.locRows i1)
  else
    .ok (ds.locRows i1)

/-- The `X` view. -/
def X (e : Experiment) : Except PyError (Option DF) := do
  let ds ← dataset e
  if e.ml_usecase ≠ some MLUsecase.time_series then
    match targetIfTruthy e.target_param with
    | some c => .ok (some (ds.dropCol c))
    | none => .ok (some ds)
  else do
    let X0 ← dropTarget ds e.target_param
    if X0.empty && e.fe_exogenous.isNone then
      .ok none
    else
      .ok (some X0)

/-- The `y` view: the target guard is checked first, and when the target is
unset the accessor returns None without touching the dataset. -/
def y (e : Experiment) : Except PyError (Option Series) :=
  match targetIfTruthy e.target_param with
  | some c => do
    let ds ← dataset e
    .ok (some (ds.getCol c))
  | none => .ok none

/-- The `X_train` view. -/
def X_train (e : Experiment) : Except PyError (Option DF) := do
  let tr ← train e
  let X0 := match e.target_param with
    | some c => tr.dropCol c
    | none => tr
  if e.ml_usecase ≠ some MLUsecase.time_series then
    .ok (some X0)
  else if X0.empty && e.fe_exogenous.isNone then
    .ok none
  else
    .ok (some X0)

/-- The `X_test` view: the non-time-series branch drops the target from
`test`; the time-series branch selects the expanded indices `idx[2]` from
`dataset` and then drops the target, returning None for an empty feature
table with no exogenous generator configured. -/
def X_test (e : Experiment) : Except PyError (Option DF) :=
  if e.ml_usecase ≠ some MLUsecase.time_series then do
    let te ← test e
    let X0 := match e.target_param with
      | some c => te.dropCol c
      | none => te
    .ok (some X0)
  else do
    let ds ← dataset e
    let i2 ← getIdx e 2
    let X0 ← dropTarget (ds.locRows i2) e.target_param
    if X0.empty && e.fe_exogenous.isNone then
      .ok none
    else
      .ok (some X0)

/-- The `y_train` view: the target guard is checked first, and when the
target is unset the accessor returns None without touching the train view. -/
def y_train (e : Experiment) : Except PyError (Option Series) :=
  match targetIfTruthy e.target_param with
  | some c => do
    let tr ← train e
    .ok (some (tr.getCol c))
  | none => .ok none

/-- The `y_test` view: the time-series branch selects `idx[1]` (never the
expanded `idx[2]`) from `dataset`. -/
def y_test (e : Experiment) : Except PyError (Option Series) :=
  if e.ml_usecase ≠ some MLUsecase.time_series then
    match targetIfTruthy e.target_param with
    | some c => do
      let te ← test e
      .ok (some (te.getCol c))
    | none => .ok none
  else
    match targetIfTruthy e.target_param with
    | some c => do
      let ds ← dataset e
      let i1 ← getIdx e 1
      .ok (some ((ds.locRows i1).getCol c))
    | none => .ok none

/-- The `X_train_transformed` view. -/
def X_train_transformed (e : Experiment) : Except PyError (Option DF) :=
  if e.ml_usecase ≠ some MLUsecase.time_series then
    match targetIfTruthy e.target_param with
    | some _ => do
      let p ← getPipeline e
      let Xt ← X_train e
      let yt ← y_train e
      (p.transform Xt yt false).sub0
    | none => do
      let p ← getPipeline e
      let Xt ← X_train e
      (p.transform Xt none false).asXView
  else do
    let p ← getPipeline e
    let yt ← y_train e
    let Xt ← X_train e
    .ok ((pipeline_transform p yt Xt).2)

/-- The `y_train_transformed` view (the non-time-series branch always takes
component `[1]` of the pipeline output, with no unsupervised guard). -/
def y_train_transformed (e : Experiment) : Except PyError (Option Series) :=
  if e.ml_usecase ≠ some MLUsecase.time_series then do
    let p ← getPipeline e
    let Xt ← X_train e
    let yt ← y_train e
    (p.transform Xt yt false).sub1
  else do
    let p ← getPipeline e
    let yt ← y_train e
    let Xt ← X_train e
    .ok (some ((pipeline_transform p yt Xt).1))

/-- The `X_test_transformed` view: the time-series branch transforms the full
data with the fully-trained pipeline and restricts the X output to `idx[2]`. -/
def X_test_transformed (e : Experiment) : Except PyError (Option DF) :=
  if e.ml_usecase ≠ some MLUsecase.time_series then do
    let p ← getPipeline e
    let Xt ← X_test e
    (p.transform Xt none false).asXView
  else do
    let p ← getPipelineFullyTrained e
    let yv ← y e
    let Xv ← X e
    match (pipeline_transform p yv Xv).2 with
    | none => .ok none
    | some Xd => do
      let i2 ← getIdx e 2
      .ok (some (Xd.locRows i2))

/-- The `y_test_transformed` view: the time-series branch transforms the full
data with the fully-trained pipeline and restricts the y output to `idx[1]`;
the non-time-series branch forwards `y=self.y_test` to the pipeline with no
unsupervised guard. -/
def y_test_transformed (e : Experiment) : Except PyError (Option Series) :=
  if e.ml_usecase ≠ some MLUsecase.time_series then do
    let p ← getPipeline e
    let yt ← y_test e
    (p.transform none yt false).asYView
  else do
    let p ← getPipelineFullyTrained e
    let yv ← y e
    let Xv ← X e
    let i1 ← getIdx e 1
    .ok (some (((pipeline_transform p yv Xv).1).locEntries i1))

/-- The `train_transformed` view: for supervised non-time-series experiments
the column-wise concatenation of `X_train_transformed` and
`y_train_transformed`; for time series the concatenation of the dual outputs
of the train-fitted pipeline on the train data. -/
def train_transformed (e : Experiment) : Except PyError (Option DF) :=
  if e.ml_usecase ≠ some MLUsecase.time_series then
    if targetTruthy e.target_param then do
      let Xt ← X_train_transformed e
      let yt ← y_train_transformed e
      .ok (concatXy Xt yt)
    else
      X_train_transformed e
  else do
    let p ← getPipeline e
    let yt ← y_train e
    let Xt ← X_train e
    let r := pipeline_transform p yt Xt
    .ok (some (concatTS r.1 r.2))

/-- Python object values held in instance attribute dictionaries (None, an
opaque atom, or a nested dict as held by `_setup_params`). -/
inductive PyObj where
  | pynone : PyObj
  | atom : Int → PyObj
  | dict : List (String × PyObj) → PyObj

/-- Python truthiness of an attribute value (None and the empty dict are
falsy, a nonzero atom is truthy). -/
def PyObj.truthy : PyObj → Bool
  | .pynone => false
  | .atom n => ! (n == 0)
  | .dict d => ! d.isEmpty

/-- An instance `__dict__`, in insertion order. -/
abbrev StrDict := List (String × PyObj)

/-- Dictionary lookup (first entry with the key). -/
def StrDict.get (d : StrDict) (k : String) : Option PyObj :=
  (d.find? (fun kv => kv.1 == k)).map (fun kv => kv.2)

/-- The key list of a dictionary. -/
def StrDict.keys (d : StrDict) : List String :=
  d.map Prod.fst

/-- `dict.pop(key, None)` applied for every key of `ks`. -/
def StrDict.popKeys (d : StrDict) (ks : List String) : StrDict :=
  d.filter (fun kv => ! ks.contains kv.1)

/-- In-place assignment to an existing key (`d[k] = v` with `k` present:
value replaced, position kept). -/
def StrDict.setKey (d : StrDict) (k : String) (v : PyObj) : StrDict :=
  d.map (fun kv => if kv.1 == k then (k, v) else kv)

/-- `setattr` / `d[k] = v`: replace in place when the key exists, append
otherwise. -/
def StrDict.setAttr (d : StrDict) (k : String) (v : PyObj) : StrDict :=
  if d.keys.contains k then d.setKey k v else d ++ [(k, v)]

/-- The entry rewrite performed by `dict.update`: an entry of the receiver
keeps its key and takes the updating dictionary value when present. -/
def StrDict.updEntry (n : StrDict) (kv : String × PyObj) : String × PyObj :=
  match n.get kv.1 with
  | some v => (kv.1, v)
  | none => kv

/-- Python `d.update(n)`: values of `n` overwrite entries of `d` in place and
fresh keys of `n` are appended. -/
def StrDict.update (d n : StrDict) : StrDict :=
  d.map n.updEntry ++ n.filter (fun kv => ! d.keys.contains kv.1)

/-- `_attributes_to_not_save`. -/
def attributesToNotSave : List String :=
  ["data", "test_data", "data_func"]

/-- `__getstate__`: a copy of the instance dictionary without the excluded
attributes, with the same exclusions also applied inside a truthy
`_setup_params` dict. -/
def getstate (st : StrDict) : StrDict :=
  let st1 := st.popKeys attributesToNotSave
  match st1.get "_setup_params" with
  | some v =>
    if v.truthy then
      match v with
      | .dict d0 => st1.setKey "_setup_params" (.dict (StrDict.popKeys d0 attributesToNotSave))
      | _ => st1
    else st1
  | none => st1

/-- Modelled from the spec: `save_experiment` serializes the experiment with
cloudpickle, whose stored payload for this class is the state returned by
`__getstate__`. -/
def save_experiment_state (orig : StrDict) : StrDict :=
  getstate orig

/-- `loaded_exp._setup_params or {}` as a plain dict. -/
def setupParamsOf (saved : StrDict) : StrDict :=
  match saved.get "_setup_params" with
  | some (.dict d0) => d0
  | _ => []

/-- The parameters the replayed setup receives: the recorded setup params
updated with the caller overrides that are parameters of `setup`. -/
def mergedParams (saved : StrDict) (sig : List String) (kw : StrDict) : StrDict :=
  (setupParamsOf saved).update (kw.filter (fun kv => sig.contains kv.1))

/-- `_load_experiment`: unpickle (instance dictionary becomes the saved
state), replay setup — modelled from the spec as an abstract state update
`setupFn`, since `setup` is overridden outside this module — and overwrite
the result with the originally captured state. -/
def load_experiment_state (saved : StrDict) (setupFn : StrDict → StrDict → StrDict)
    (sig : List String) (kw : StrDict) : StrDict :=
  let original_state := saved
  let after := setupFn saved (mergedParams saved sig kw)
  after.update original_state

/-- The configuration-registry face of the experiment: the registered
variable keys, the computed public property names, the plain attribute
dictionary and the property values. -/
structure ConfigState where
  variable_keys : List String
  property_keys : List String
  attrs : StrDict
  props : String → PyObj

/-- `getattr(self, k)`: a class property wins over an instance attribute; a
missing name raises `AttributeError`. -/
def getattrE (e : ConfigState) (k : String) : Except PyError PyObj :=
  if e.property_keys.contains k then .ok (e.props k)
  else
    match e.attrs.get k with
    | some v => .ok v
    | none => .error (.attributeError "object has no such attribute")

/-- `get_config`: unknown names (outside the union of variable keys and
property keys) raise `ValueError`; otherwise the attribute is returned (the
legacy-name deprecation warning changes no behavior). -/
def get_config (e : ConfigState) (varName : String) : Except PyError PyObj :=
  if ! ((e.variable_keys ++ e.property_keys).contains varName) then
    .error (.valueError "variable not found")
  else
    getattrE e varName

/-- Python `k.startswith("_")`: a single-character prefix test, modelled on
the character list because the byte-level String.startsWith primitive does
not reduce inside the kernel. -/
def startsWithUnderscore (s : String) : Bool :=
  match s.data with
  | [] => false
  | c :: _ => c == '_'

/-- The writable names: variable keys that are not properties and are not
private-prefixed. -/
def writeable_keys (e : ConfigState) : List String :=
  (e.variable_keys.filter (fun x => ! e.property_keys.contains x)).filter
    (fun x => ! startsWithUnderscore x)

/-- `setattr(self, k, v)` on the attribute dictionary. -/
def setConfigAttr (e : ConfigState) (k : String) (v : PyObj) : ConfigState :=
  { e with attrs := e.attrs.setAttr k v }

/-- The `set_config` validation-and-assignment loop: pairs are checked and
assigned one at a time, and a failing pair stops the loop with the state
mutated so far (Python raises there, leaving earlier assignments in place). -/
def set_config_loop (e : ConfigState) : List (String × PyObj) → ConfigState × Option PyError
  | [] => (e, none)
  | (k, v) :: rest =>
    if startsWithUnderscore k then
      (e, some (.valueError "variable is read only"))
    else if ! (writeable_keys e).contains k then
      (e, some (.valueError "variable not found or is not writeable"))
    else
      set_config_loop (setConfigAttr e k v) rest

/-- `set_config`: a positional pair and keyword arguments are mutually
exclusive; the pairs (keyword arguments, or the single positional pair) are
then processed by the sequential loop. -/
def set_config (e : ConfigState) (varName : Option String) (value : PyObj)
    (kwargs : List (String × PyObj)) : ConfigState × Option PyError :=
  if ! kwargs.isEmpty && targetTruthy varName then
    (e, some (.valueError "variable parameter cannot be used together with keyword arguments"))
  else if ! kwargs.isEmpty then
    set_config_loop e kwargs
  else
    match varName with
    | some k => set_config_loop e [(k, value)]
    | none => (e, some (.attributeError "NoneType object has no attribute startswith"))

/-- Classifier used by the error-handling claims: is the result a raised
`RuntimeError`? -/
def isRuntimeErrorResult {α : Type} : Except PyError α → Bool
  | .error (.runtimeError _) => true
  | _ => false

/-- Classifier used by the error-handling claims: did the call raise at all? -/
def isErrorResult {α : Type} : Except PyError α → Bool
  | .error _ => true
  | .ok _ => false

/-- Classifier for a `ValueError` stored beside a post-loop state. -/
def isValueErrorOpt : Option PyError → Bool
  | some (.valueError _) => true
  | _ => false

/-! General lemmas about the monadic plumbing and the list-backed tables. -/

theorem ok_bind {α β : Type} (a : α) (f : α → Except PyError β) :
    (Except.ok a >>= f) = f a := rfl

theorem error_bind {α β : Type} (x : PyError) (f : α → Except PyError β) :
    ((Except.error x : Except PyError α) >>= f) = Except.error x := rfl

theorem contains_iff_mem {α : Type} [BEq α] [LawfulBEq α] (l : List α) (a : α) :
    l.contains a = true ↔ a ∈ l := by
  simp [List.contains, List.elem_iff]

theorem filterMap_length_all_isSome {α β : Type} (f : α → Option β) :
    ∀ l : List α, (∀ a ∈ l, (f a).isSome = true) → (l.filterMap f).length = l.length := by
  intro l
  induction l with
  | nil => intro _; rfl
  | cons a t ih =>
    intro h
    have ha := h a (List.mem_cons_self a t)
    cases hfa : f a with
    | none => rw [hfa] at ha; simp at ha
    | some b =>
      rw [List.filterMap_cons, hfa, List.length_cons,
        ih (fun x hx => h x (List.mem_cons_of_mem a hx))]
      rfl

theorem find?_isSome_of_mem {α : Type} (p : α → Bool) (l : List α) (a : α)
    (ha : a ∈ l) (hp : p a = true) : (l.find? p).isSome = true := by
  induction l with
  | nil => cases ha
  | cons b t ih =>
    by_cases hb : p b = true
    · rw [List.find?_cons_of_pos t hb]; rfl
    · rw [List.find?_cons_of_neg t hb]
      rcases List.mem_cons.mp ha with h1 | h2
      · subst h1; exact absurd hp hb
      · exact ih h2

theorem locRows_length (df : DF) (idx : List Nat)
    (h : ∀ l ∈ idx, l ∈ df.rows.map Prod.fst) :
    (df.locRows idx).rows.length = idx.length := by
  apply filterMap_length_all_isSome
  intro a ha
  rcases List.mem_map.mp (h a ha) with ⟨r, hr, hfst⟩
  exact find?_isSome_of_mem _ _ r hr (by simp [hfst])

theorem filterCols_rowLabels (df : DF) (p : String → Bool) :
    (df.filterCols p).rows.map Prod.fst = df.rows.map Prod.fst := by
  simp [DF.filterCols, List.map_map]

theorem filterCols_rowCount (df : DF) (p : String → Bool) :
    (df.filterCols p).rows.length = df.rows.length := by
  simp [DF.filterCols]

theorem dropCol_rowCount (df : DF) (c : String) :
    (df.dropCol c).rows.length = df.rows.length := by
  simp [DF.dropCol, filterCols_rowCount]

theorem getCol_length (df : DF) (c : String) :
    (df.getCol c).entries.length = df.rows.length := by
  simp [DF.getCol]

/-! Lemmas about the dictionary operations. -/

theorem find?_key_eq_none_of_not_mem_keys (d : StrDict) (k : String)
    (h : ¬ k ∈ d.keys) : d.find? (fun kv => kv.1 == k) = none := by
  induction d with
  | nil => rfl
  | cons a t ih =>
    have h1 : ¬ (a.1 == k) = true := by
      intro hh
      exact h (by rw [StrDict.keys, List.map_cons, eq_of_beq hh]; exact List.mem_cons_self _ _)
    rw [List.find?_cons_of_neg t h1]
    exact ih (fun hm => h (by rw [StrDict.keys, List.map_cons]; exact List.mem_cons_of_mem _ hm))

theorem find?_key_isSome_of_mem_keys (d : StrDict) (k : String)
    (h : k ∈ d.keys) : (d.find? (fun kv => kv.1 == k)).isSome = true := by
  rcases List.mem_map.mp h with ⟨kv, hkv, hfst⟩
  exact find?_isSome_of_mem _ _ kv hkv (by simp [hfst])

theorem strdict_get_isSome_iff_mem_keys (d : StrDict) (k : String) :
    (d.get k).isSome = true ↔ k ∈ d.keys := by
  constructor
  · intro h
    cases hf : d.find? (fun kv => kv.1 == k) with
    | none => simp only [StrDict.get, hf] at h; simp at h
    | some kv =>
      have hp : (kv.1 == k) = true := @List.find?_some _ (fun kv => kv.1 == k) kv d hf
      have hm := List.mem_of_find?_eq_some hf
      rw [← eq_of_beq hp]
      exact List.mem_map.mpr ⟨kv, hm, rfl⟩
  · intro h
    have hs := find?_key_isSome_of_mem_keys d k h
    simp only [StrDict.get]
    cases hf : d.find? (fun kv => kv.1 == k) with
    | none => rw [hf] at hs; simp at hs
    | some kv => rfl

theorem strdict_get_eq_none_of_not_mem_keys (d : StrDict) (k : String)
    (h : ¬ k ∈ d.keys) : d.get k = none := by
  simp only [StrDict.get, find?_key_eq_none_of_not_mem_keys d k h]
  rfl

theorem find?_key_map_keypreserving (g : (String × PyObj) → (String × PyObj))
    (hg : ∀ kv, (g kv).1 = kv.1) (d : StrDict) (k : String) :
    (d.map g).find? (fun kv => kv.1 == k) = (d.find? (fun kv => kv.1 == k)).map g := by
  induction d with
  | nil => rfl
  | cons a t ih =>
    rw [List.map_cons]
    by_cases h : (a.1 == k) = true
    · have hga : ((g a).1 == k) = true := by rw [hg a]; exact h
      rw [@List.find?_cons_of_pos _ (fun kv => kv.1 == k) (g a) (t.map g) hga,
        @List.find?_cons_of_pos _ (fun kv => kv.1 == k) a t h]
      rfl
    · have hga : ¬ ((g a).1 == k) = true := by rw [hg a]; exact h
      rw [@List.find?_cons_of_neg _ (fun kv => kv.1 == k) (g a) (t.map g) hga,
        @List.find?_cons_of_neg _ (fun kv => kv.1 == k) a t h, ih]

theorem find?_filter_keys_none (n : StrDict) (ks : List String) (k : String)
    (h : ks.contains k = true) :
    (n.filter (fun kv => ! ks.contains kv.1)).find? (fun kv => kv.1 == k) = none := by
  induction n with
  | nil => rfl
  | cons a t ih =>
    by_cases ha : (! ks.contains a.1) = true
    · rw [@List.filter_cons_of_pos _ (fun kv => ! ks.contains kv.1) a t ha]
      have hk : ¬ (a.1 == k) = true := by
        intro hh
        rw [eq_of_beq hh, h] at ha
        simp at ha
      rw [@List.find?_cons_of_neg _ (fun kv => kv.1 == k) a
        (t.filter (fun kv => ! ks.contains kv.1)) hk]
      exact ih
    · rw [@List.filter_cons_of_neg _ (fun kv => ! ks.contains kv.1) a t ha]
      exact ih

theorem find?_filter_keys_same (n : StrDict) (ks : List String) (k : String)
    (h : ks.contains k = false) :
    (n.filter (fun kv => ! ks.contains kv.1)).find? (fun kv => kv.1 == k)
      = n.find? (fun kv => kv.1 == k) := by
  induction n with
  | nil => rfl
  | cons a t ih =>
    by_cases hk : (a.1 == k) = true
    · have ha : (! ks.contains a.1) = true := by rw [eq_of_beq hk, h]; rfl
      rw [@List.filter_cons_of_pos _ (fun kv => ! ks.contains kv.1) a t ha,
        @List.find?_cons_of_pos _ (fun kv => kv.1 == k) a
          (t.filter (fun kv => ! ks.contains kv.1)) hk,
        @List.find?_cons_of_pos _ (fun kv => kv.1 == k) a t hk]
    · by_cases ha : (! ks.contains a.1) = true
      · rw [@List.filter_cons_of_pos _ (fun kv => ! ks.contains kv.1) a t ha,
          @List.find?_cons_of_neg _ (fun kv => kv.1 == k) a
            (t.filter (fun kv => ! ks.contains kv.1)) hk,
          @List.find?_cons_of_neg _ (fun kv => kv.1 == k) a t hk]
        exact ih
      · rw [@List.filter_cons_of_neg _ (fun kv => ! ks.contains kv.1) a t ha,
          @List.find?_cons_of_neg _ (fun kv => kv.1 == k) a t hk]
        exact ih

theorem strdict_get_append (d1 d2 : StrDict) (k : String) :
    StrDict.get (d1 ++ d2) k
      = ((d1.find? (fun kv => kv.1 == k)).or (d2.find? (fun kv => kv.1 == k))).map
          (fun kv => kv.2) := by
  simp only [StrDict.get, List.find?_append]

theorem strdict_get_update (d n : StrDict) (k : String) :
    (d.update n).get k = match n.get k with
      | some v => some v
      | none => d.get k := by
  have hg : ∀ kv, (n.updEntry kv).1 = kv.1 := by
    intro kv
    simp only [StrDict.updEntry]
    cases n.get kv.1 <;> rfl
  show StrDict.get (d.map n.updEntry ++ n.filter (fun kv => ! d.keys.contains kv.1)) k = _
  rw [strdict_get_append, find?_key_map_keypreserving _ hg]
  by_cases hm : k ∈ d.keys
  · have hs := find?_key_isSome_of_mem_keys d k hm
    cases hf : d.find? (fun kv => kv.1 == k) with
    | none => rw [hf] at hs; simp at hs
    | some kv0 =>
      have hp : (kv0.1 == k) = true := @List.find?_some _ (fun kv => kv.1 == k) kv0 d hf
      have hk0 : kv0.1 = k := eq_of_beq hp
      cases hn : n.get k with
      | some v =>
        have he : n.updEntry kv0 = (kv0.1, v) := by
          simp only [StrDict.updEntry, hk0, hn]
        simp [Option.or, Option.map, he]
      | none =>
        have he : n.updEntry kv0 = kv0 := by
          simp only [StrDict.updEntry, hk0, hn]
        simp [Option.or, Option.map, he, StrDict.get, hf]
  · have hcont : d.keys.contains k = false := by
      cases hc : d.keys.contains k with
      | false => rfl
      | true => exact absurd ((contains_iff_mem _ _).mp hc) hm
    rw [find?_key_eq_none_of_not_mem_keys d k hm,
      find?_filter_keys_same n d.keys k hcont]
    cases hn : n.find? (fun kv => kv.1 == k) with
    | none =>
      have hget : StrDict.get n k = none := by simp only [StrDict.get, hn]; rfl
      rw [hget]
      simp [Option.or, strdict_get_eq_none_of_not_mem_keys d k hm]
    | some kv0 =>
      have hget : StrDict.get n k = some kv0.2 := by simp only [StrDict.get, hn]; rfl
      rw [hget]
      simp [Option.or]

theorem setKey_entry_fst (k : String) (v : PyObj) (kv : String × PyObj) :
    ((if kv.1 == k then (k, v) else kv) : String × PyObj).1 = kv.1 := by
  by_cases h : (kv.1 == k) = true
  · rw [if_pos h]
    exact (eq_of_beq h).symm
  · rw [if_neg h]

theorem strdict_get_setKey_ne (d : StrDict) (k0 k : String) (v : PyObj)
    (h : ¬ k = k0) :
    (d.setKey k0 v).get k = d.get k := by
  have hkp : ∀ kv : String × PyObj,
      ((fun kv => if kv.1 == k0 then (k0, v) else kv) kv).1 = kv.1 :=
    fun kv => setKey_entry_fst k0 v kv
  simp only [StrDict.setKey, StrDict.get]
  rw [find?_key_map_keypreserving _ hkp]
  cases hf : d.find? (fun kv => kv.1 == k) with
  | none => rfl
  | some kv0 =>
    have hp : (kv0.1 == k) = true := @List.find?_some _ (fun kv => kv.1 == k) kv0 d hf
    have hne : ¬ (kv0.1 == k0) = true := by
      intro hh
      exact h ((eq_of_beq hp).symm.trans (eq_of_beq hh))
    simp only [Option.map, Option.or]
    rw [if_neg hne]

theorem strdict_get_setKey_eq (d : StrDict) (k : String) (v : PyObj)
    (h : k ∈ d.keys) :
    (d.setKey k v).get k = some v := by
  have hkp : ∀ kv : String × PyObj,
      ((fun kv => if kv.1 == k then (k, v) else kv) kv).1 = kv.1 :=
    fun kv => setKey_entry_fst k v kv
  simp only [StrDict.setKey, StrDict.get]
  rw [find?_key_map_keypreserving _ hkp]
  have hs := find?_key_isSome_of_mem_keys d k h
  cases hf : d.find? (fun kv => kv.1 == k) with
  | none => rw [hf] at hs; simp at hs
  | some kv0 =>
    have hp : (kv0.1 == k) = true := @List.find?_some _ (fun kv => kv.1 == k) kv0 d hf
    simp only [Option.map, Option.or]
    rw [if_pos hp]

theorem strdict_get_setAttr_eq (d : StrDict) (k : String) (v : PyObj) :
    (d.setAttr k v).get k = some v := by
  by_cases h : d.keys.contains k = true
  · simp only [StrDict.setAttr, if_pos h]
    exact strdict_get_setKey_eq d k v ((contains_iff_mem _ _).mp h)
  · simp only [StrDict.setAttr, if_neg h]
    have hm : ¬ k ∈ d.keys := fun hh => h ((contains_iff_mem _ _).mpr hh)
    rw [strdict_get_append, find?_key_eq_none_of_not_mem_keys d k hm]
    simp [Option.or, List.find?]

theorem strdict_get_popKeys_mem (d : StrDict) (ks : List String) (k : String)
    (h : ks.contains k = true) : (d.popKeys ks).get k = none := by
  simp only [StrDict.popKeys, StrDict.get, find?_filter_keys_none d ks k h]
  rfl

theorem strdict_get_popKeys_not_mem (d : StrDict) (ks : List String) (k : String)
    (h : ks.contains k = false) : (d.popKeys ks).get k = d.get k := by
  simp only [StrDict.popKeys, StrDict.get, find?_filter_keys_same d ks k h]

theorem strdict_popKeys_popKeys (d : StrDict) (ks : List String) :
    (d.popKeys ks).popKeys ks = d.popKeys ks := by
  simp only [StrDict.popKeys, List.filter_filter]
  simp [Bool.and_self]

theorem strdict_popKeys_keys_sub (d : StrDict) (ks : List String) (k : String)
    (h : k ∈ (d.popKeys ks).keys) : k ∈ d.keys := by
  rcases List.mem_map.mp h with ⟨kv, hkv, hfst⟩
  exact List.mem_map.mpr ⟨kv, List.mem_of_mem_filter hkv, hfst⟩

/-- The value of the setup-params entry after state capture: the exclusion
list is popped inside a truthy (that is, non-empty) dict, and every other
value is kept as is. -/
def stripSetupParams : Option PyObj → Option PyObj
  | some (PyObj.dict d0) =>
      if d0.isEmpty then some (PyObj.dict d0)
      else some (PyObj.dict (StrDict.popKeys d0 attributesToNotSave))
  | other => other

theorem stripSetupParams_idem (o : Option PyObj) :
    stripSetupParams (stripSetupParams o) = stripSetupParams o := by
  match o with
  | none => rfl
  | some PyObj.pynone => rfl
  | some (PyObj.atom n) => rfl
  | some (PyObj.dict d0) =>
    by_cases h : d0.isEmpty = true
    · simp [stripSetupParams, if_pos h]
    · simp only [stripSetupParams, if_neg h]
      by_cases h2 : (StrDict.popKeys d0 attributesToNotSave).isEmpty = true
      · rw [if_pos h2]
      · rw [if_neg h2, strdict_popKeys_popKeys]

theorem getstate_get (st : StrDict) (k : String) :
    (getstate st).get k =
      if attributesToNotSave.contains k = true then none
      else if k = "_setup_params" then stripSetupParams (st.get "_setup_params")
      else st.get k := by
  have hspx : attributesToNotSave.contains "_setup_params" = false := rfl
  have h1 : (st.popKeys attributesToNotSave).get "_setup_params" = st.get "_setup_params" :=
    strdict_get_popKeys_not_mem st _ _ hspx
  by_cases hk : attributesToNotSave.contains k = true
  · rw [if_pos hk]
    have hkne : ¬ k = "_setup_params" := by
      intro hh
      rw [hh, hspx] at hk
      cases hk
    cases hsp : (st.popKeys attributesToNotSave).get "_setup_params" with
    | none =>
      simp only [getstate, hsp]
      exact strdict_get_popKeys_mem st _ k hk
    | some v =>
      simp only [getstate, hsp]
      cases v with
      | pynone =>
        rw [if_neg (by decide)]
        exact strdict_get_popKeys_mem st _ k hk
      | atom n =>
        by_cases ht : (PyObj.atom n).truthy = true
        · rw [if_pos ht]
          exact strdict_get_popKeys_mem st _ k hk
        · rw [if_neg ht]
          exact strdict_get_popKeys_mem st _ k hk
      | dict d0 =>
        by_cases ht : (PyObj.dict d0).truthy = true
        · rw [if_pos ht, strdict_get_setKey_ne _ _ _ _ hkne]
          exact strdict_get_popKeys_mem st _ k hk
        · rw [if_neg ht]
          exact strdict_get_popKeys_mem st _ k hk
  · rw [if_neg hk]
    have hkc : attributesToNotSave.contains k = false := by
      cases hc : attributesToNotSave.contains k with
      | false => rfl
      | true => exact absurd hc hk
    by_cases hsp2 : k = "_setup_params"
    · rw [if_pos hsp2]
      subst hsp2
      cases hv : st.get "_setup_params" with
      | none =>
        have hsp : (st.popKeys attributesToNotSave).get "_setup_params" = none := by
          rw [h1, hv]
        simp only [getstate, hsp]
        rfl
      | some v =>
        have hsp : (st.popKeys attributesToNotSave).get "_setup_params" = some v := by
          rw [h1, hv]
        simp only [getstate, hsp]
        cases v with
        | pynone =>
          rw [if_neg (by decide)]
          exact hsp
        | atom n =>
          by_cases ht : (PyObj.atom n).truthy = true
          · rw [if_pos ht]
            exact hsp
          · rw [if_neg ht]
            exact hsp
        | dict d0 =>
          by_cases hE : d0.isEmpty = true
          · have ht : ¬ (PyObj.dict d0).truthy = true := by
              simp [PyObj.truthy, hE]
            rw [if_neg ht, hsp]
            simp [stripSetupParams, hE]
          · have hEf : d0.isEmpty = false := by
              cases hc : d0.isEmpty with
              | false => rfl
              | true => exact absurd hc hE
            have ht : (PyObj.dict d0).truthy = true := by
              simp [PyObj.truthy, hEf]
            rw [if_pos ht]
            have hmem : "_setup_params" ∈ (st.popKeys attributesToNotSave).keys := by
              rw [← strdict_get_isSome_iff_mem_keys, hsp]
              rfl
            rw [strdict_get_setKey_eq _ _ _ hmem]
            simp [stripSetupParams, if_neg hE]
    · rw [if_neg hsp2]
      cases hsp : (st.popKeys attributesToNotSave).get "_setup_params" with
      | none =>
        simp only [getstate, hsp]
        exact strdict_get_popKeys_not_mem st _ k hkc
      | some v =>
        simp only [getstate, hsp]
        cases v with
        | pynone =>
          rw [if_neg (by decide)]
          exact strdict_get_popKeys_not_mem st _ k hkc
        | atom n =>
          by_cases ht : (PyObj.atom n).truthy = true
          · rw [if_pos ht]
            exact strdict_get_popKeys_not_mem st _ k hkc
          · rw [if_neg ht]
            exact strdict_get_popKeys_not_mem st _ k hkc
        | dict d0 =>
          by_cases ht : (PyObj.dict d0).truthy = true
          · rw [if_pos ht, strdict_get_setKey_ne _ _ _ _ hsp2]
            exact strdict_get_popKeys_not_mem st _ k hkc
          · rw [if_neg ht]
            exact strdict_get_popKeys_not_mem st _ k hkc

theorem update_getstate_get (orig A : StrDict)
    (hcov : ∀ k0, k0 ∈ A.keys →
      k0 ∈ (getstate orig).keys ∨ attributesToNotSave.contains k0 = true) :
    ∀ k, (getstate (A.update (getstate orig))).get k = (getstate orig).get k := by
  intro k
  have hAget : ∀ k0, ¬ k0 ∈ (getstate orig).keys →
      attributesToNotSave.contains k0 = false → A.get k0 = none := by
    intro k0 h1 h2
    apply strdict_get_eq_none_of_not_mem_keys
    intro hmem
    rcases hcov k0 hmem with h | h
    · exact h1 h
    · rw [h] at h2
      cases h2
  rw [getstate_get (A.update (getstate orig)) k, getstate_get orig k]
  by_cases hk : attributesToNotSave.contains k = true
  · rw [if_pos hk, if_pos hk]
  · have hkc : attributesToNotSave.contains k = false := by
      cases hc : attributesToNotSave.contains k with
      | false => rfl
      | true => exact absurd hc hk
    rw [if_neg hk, if_neg hk]
    by_cases hsp2 : k = "_setup_params"
    · rw [if_pos hsp2, if_pos hsp2]
      subst hsp2
      have hSspEq : (getstate orig).get "_setup_params"
          = stripSetupParams (orig.get "_setup_params") := by
        rw [getstate_get orig "_setup_params", if_neg (by decide), if_pos rfl]
      rw [strdict_get_update]
      cases hSsp : (getstate orig).get "_setup_params" with
      | some v =>
        rw [hSsp] at hSspEq
        calc stripSetupParams (some v)
            = stripSetupParams (stripSetupParams (orig.get "_setup_params")) := by
              rw [← hSspEq]
          _ = stripSetupParams (orig.get "_setup_params") := stripSetupParams_idem _
      | none =>
        have h1 : ¬ "_setup_params" ∈ (getstate orig).keys := by
          intro hm
          have hs := (strdict_get_isSome_iff_mem_keys (getstate orig) _).mpr hm
          rw [hSsp] at hs
          simp at hs
        have hA0 : A.get "_setup_params" = none := hAget _ h1 (by decide)
        rw [hA0]
        rw [hSsp] at hSspEq
        rw [← hSspEq]
        rfl
    · rw [if_neg hsp2, if_neg hsp2]
      have hSkEq : (getstate orig).get k = orig.get k := by
        rw [getstate_get orig k, if_neg hk, if_neg hsp2]
      rw [strdict_get_update]
      cases hSk : (getstate orig).get k with
      | some v =>
        rw [hSk] at hSkEq
        exact hSkEq
      | none =>
        have h1 : ¬ k ∈ (getstate orig).keys := by
          intro hm
          have hs := (strdict_get_isSome_iff_mem_keys (getstate orig) _).mpr hm
          rw [hSk] at hs
          simp at hs
        have hA0 : A.get k = none := hAget _ h1 hkc
        rw [hA0]
        rw [hSk] at hSkEq
        exact hSkEq

/-- C5: serializing with save_experiment and reloading with load_experiment
yields an object whose captured state equals the captured state of the
original on every key: keys outside the exclusion list (data, test_data,
data_func) keep the originally captured values because the replayed setup
output is overwritten by the captured state, and excluded keys are absent
from both captured states.  The replayed setup is an arbitrary state update
whose written keys all existed in the captured state or are excluded (as
they do when replaying the setup the original experiment already ran). -/
theorem C5_theorem (orig : StrDict) (f : StrDict → StrDict → StrDict)
    (sig : List String) (kw : StrDict)
    (hf : ((f (save_experiment_state orig)
            (mergedParams (save_experiment_state orig) sig kw)).keys.all
          (fun k0 => (save_experiment_state orig).keys.contains k0
            || attributesToNotSave.contains k0)) = true) :
    ∀ k : String,
      (getstate (load_experiment_state (save_experiment_state orig) f sig kw)).get k
        = (getstate orig).get k := by
  intro k
  have hcov : ∀ k0, k0 ∈ (f (save_experiment_state orig)
        (mergedParams (save_experiment_state orig) sig kw)).keys →
      k0 ∈ (getstate orig).keys ∨ attributesToNotSave.contains k0 = true := by
    intro k0 hk0
    have h2 := List.all_eq_true.mp hf k0 hk0
    rcases (Bool.or_eq_true _ _) ▸ h2 with h | h
    · exact Or.inl ((contains_iff_mem _ _).mp h)
    · exact Or.inr h
  exact update_getstate_get orig _ hcov k

/-- Original instance state for the save and restore round trip: an
experiment whose setup-params record also holds a raw-data entry. -/
def origC5 : StrDict :=
  [("_ml_usecase", PyObj.atom 1),
   ("data", PyObj.dict [("rows", PyObj.atom 10)]),
   ("target_param", PyObj.atom 2),
   ("_setup_params", PyObj.dict [("data", PyObj.atom 9), ("fold", PyObj.atom 3)]),
   ("pipeline", PyObj.atom 4)]

/-- A concrete replayed setup: regenerates the raw data and the pipeline. -/
def setupC5 : StrDict → StrDict → StrDict :=
  fun st _ => (st.setAttr "data" (PyObj.atom 99)).setAttr "pipeline" (PyObj.atom 5)

theorem C5_witness :
    ((setupC5 (save_experiment_state origC5)
        (mergedParams (save_experiment_state origC5) ["data", "fold"] [])).keys.all
      (fun k0 => (save_experiment_state origC5).keys.contains k0
        || attributesToNotSave.contains k0)) = true ∧
    (getstate (load_experiment_state (save_experiment_state origC5) setupC5
        ["data", "fold"] [])).get "pipeline"
      = (getstate origC5).get "pipeline" :=
  ⟨by decide, C5_theorem origC5 setupC5 ["data", "fold"] [] (by decide) "pipeline"⟩

/-- C4: for every experiment the raw-data views: the dataset view drops
exactly the Ignore-tagged columns and keeps every other raw column, and when
the train and test indices together partition the row labels of the raw
data, the train and test row counts add up to the dataset row count. -/
theorem C4_theorem (e : Experiment) (d dsv trainT testT : DF) (i0 i1 : List Nat)
    (hd : e.data = some d)
    (hi0 : e.idx.get? 0 = some i0)
    (hi1 : e.idx.get? 1 = some i1)
    (hds : dataset e = .ok dsv)
    (htr : train e = .ok trainT)
    (hte : test e = .ok testT)
    (hperm : (i0 ++ i1).Perm (d.rows.map Prod.fst)) :
    (∀ c ∈ e.fxs_ignore, ¬ c ∈ dsv.cols) ∧
    (∀ c ∈ d.cols, ¬ c ∈ e.fxs_ignore → c ∈ dsv.cols) ∧
    trainT.rows.length + testT.rows.length = dsv.rows.length := by
  have hds0 : dataset e = .ok (d.filterCols (fun c => ! e.fxs_ignore.contains c)) := by
    simp [dataset, getData, hd, ok_bind]
  have hdsv : d.filterCols (fun c => ! e.fxs_ignore.contains c) = dsv := by
    rw [hds0] at hds
    exact Except.ok.inj hds
  have htrv : (d.filterCols (fun c => ! e.fxs_ignore.contains c)).locRows i0 = trainT := by
    simp only [train, hds0, ok_bind, getIdx, hi0] at htr
    exact Except.ok.inj htr
  have htev : (d.filterCols (fun c => ! e.fxs_ignore.contains c)).locRows i1 = testT := by
    simp only [test, hds0, ok_bind, getIdx, hi1, ite_self] at hte
    exact Except.ok.inj hte
  subst hdsv
  refine ⟨?_, ?_, ?_⟩
  · intro c hc hmem
    rcases List.mem_filter.mp hmem with ⟨_, h2⟩
    rw [(contains_iff_mem _ _).mpr hc] at h2
    simp at h2
  · intro c h1 h2
    apply List.mem_filter.mpr
    refine ⟨h1, ?_⟩
    cases hcc : e.fxs_ignore.contains c with
    | false => rfl
    | true => exact absurd ((contains_iff_mem _ _).mp hcc) h2
  · have hpres : ∀ l, l ∈ i0 ++ i1 →
        l ∈ (d.filterCols (fun c => ! e.fxs_ignore.contains c)).rows.map Prod.fst := by
      intro l hl
      rw [filterCols_rowLabels]
      exact hperm.subset hl
    rw [← htrv, ← htev,
      locRows_length _ i0 (fun l hl => hpres l (List.mem_append_left _ hl)),
      locRows_length _ i1 (fun l hl => hpres l (List.mem_append_right _ hl)),
      filterCols_rowCount]
    have := hperm.length_eq
    rw [List.length_append, List.length_map] at this
    exact this

/-- Raw data for the C4 witness: columns f1, tgt and an Ignore-tagged ign. -/
def dataC4 : DF :=
  ⟨["f1", "tgt", "ign"], [(0, [1, 10, 5]), (1, [2, 20, 6]), (2, [3, 30, 7])]⟩

def expC4 : Experiment :=
  { ml_usecase := some MLUsecase.classification
  , data := some dataC4
  , target_param := some "tgt"
  , idx := [[0, 1], [2]]
  , fxs_ignore := ["ign"]
  , fe_exogenous := none
  , pipeline := none
  , pipeline_fully_trained := none
  , setup_ran := true }

def dsvC4 : DF := ⟨["f1", "tgt"], [(0, [1, 10]), (1, [2, 20]), (2, [3, 30])]⟩

def trainC4 : DF := ⟨["f1", "tgt"], [(0, [1, 10]), (1, [2, 20])]⟩

def testC4 : DF := ⟨["f1", "tgt"], [(2, [3, 30])]⟩

theorem C4_witness :
    (([0, 1] ++ [2] : List Nat).Perm (dataC4.rows.map Prod.fst)) ∧
    trainC4.rows.length + testC4.rows.length = dsvC4.rows.length :=
  ⟨by decide,
   (C4_theorem expC4 dataC4 dsvC4 trainC4 testC4 [0, 1] [2] rfl rfl rfl rfl rfl rfl
     (by decide)).2.2⟩

/-- Raw data with only the target column (univariate time series). -/
def dataUni : DF := ⟨["t"], [(0, [10]), (1, [20]), (2, [30])]⟩

/-- A univariate time-series experiment: the dataset holds only the target
column and no exogenous-feature generator is configured. -/
def expC1bad : Experiment :=
  { ml_usecase := some MLUsecase.time_series
  , data := some dataUni
  , target_param := some "t"
  , idx := [[0], [1], [1, 2]]
  , fxs_ignore := []
  , fe_exogenous := none
  , pipeline := none
  , pipeline_fully_trained := none
  , setup_ran := true }

/-- C1 counterexample: on a univariate time-series experiment with target
set, X_test returns None — not the rows of the dataset at idx 2 with the
target dropped — so its length cannot equal the length of idx 2 (here 2). -/
theorem C1_counterexample :
    expC1bad.ml_usecase = some MLUsecase.time_series ∧
    expC1bad.target_param = some "t" ∧
    expC1bad.idx.get? 2 = some [1, 2] ∧
    X_test expC1bad = Except.ok none :=
  ⟨rfl, rfl, rfl, rfl⟩

theorem ignore_pred_eq (ign : List String) :
    (fun c => ! ign.contains c) = (fun c => ! decide (c ∈ ign)) := by
  funext c
  by_cases hm : c ∈ ign
  · rw [(contains_iff_mem ign c).mpr hm, decide_eq_true hm]
  · have hc : ign.contains c = false := by
      cases h : ign.contains c with
      | false => rfl
      | true => exact absurd ((contains_iff_mem ign c).mp h) hm
    rw [hc, decide_eq_false hm]

/-- C1 (amended): for a time-series experiment with target set whose test
feature table is non-empty or whose exogenous generator is configured (the
claim fails otherwise because X_test is then None), y_test is exactly the
target column of the dataset rows at idx 1 and X_test is exactly the dataset
rows at idx 2 with the target dropped; with the spec invariant that the
indices exist among the row labels, the lengths equal those of idx 1 and
idx 2 respectively, also when idx 2 is a strict superset of idx 1. -/
theorem C1_amended (e : Experiment) (d : DF) (t : String) (i1 i2 : List Nat)
    (hts : e.ml_usecase = some MLUsecase.time_series)
    (hd : e.data = some d)
    (ht : e.target_param = some t)
    (ht2 : (t == "") = false)
    (hi1 : e.idx.get? 1 = some i1)
    (hi2 : e.idx.get? 2 = some i2)
    (hp1 : ∀ l ∈ i1, l ∈ d.rows.map Prod.fst)
    (hp2 : ∀ l ∈ i2, l ∈ d.rows.map Prod.fst)
    (hne : (((d.filterCols (fun c => ! e.fxs_ignore.contains c)).locRows i2).dropCol t).empty
            = false
        ∨ e.fe_exogenous.isSome = true) :
    y_test e = .ok (some
        (((d.filterCols (fun c => ! e.fxs_ignore.contains c)).locRows i1).getCol t)) ∧
    (((d.filterCols (fun c => ! e.fxs_ignore.contains c)).locRows i1).getCol t).entries.length
        = i1.length ∧
    X_test e = .ok (some
        (((d.filterCols (fun c => ! e.fxs_ignore.contains c)).locRows i2).dropCol t)) ∧
    (((d.filterCols (fun c => ! e.fxs_ignore.contains c)).locRows i2).dropCol t).rows.length
        = i2.length := by
  have hi1x : e.idx[1]? = some i1 := by rw [← List.get?_eq_getElem?]; exact hi1
  have hi2x : e.idx[2]? = some i2 := by rw [← List.get?_eq_getElem?]; exact hi2
  have hpres1 : ∀ l ∈ i1,
      l ∈ (d.filterCols (fun c => ! e.fxs_ignore.contains c)).rows.map Prod.fst := by
    intro l hl
    rw [filterCols_rowLabels]
    exact hp1 l hl
  have hpres2 : ∀ l ∈ i2,
      l ∈ (d.filterCols (fun c => ! e.fxs_ignore.contains c)).rows.map Prod.fst := by
    intro l hl
    rw [filterCols_rowLabels]
    exact hp2 l hl
  refine ⟨?_, ?_, ?_, ?_⟩
  · simp [y_test, hts, targetIfTruthy, ht, ht2, dataset, getData, hd, getIdx, hi1x, ok_bind]
  · rw [getCol_length, locRows_length _ i1 hpres1]
  · rw [ignore_pred_eq] at hne
    simp only [ignore_pred_eq] at hpres2
    simp [X_test, hts, dataset, getData, hd, getIdx, hi2x, dropTarget, ht, ok_bind]
    intro h1 h2
    rcases hne with h3 | h3
    · rw [h1] at h3; cases h3
    · rw [h2] at h3; cases h3
  · rw [dropCol_rowCount, locRows_length _ i2 hpres2]

/-- Raw data for the C1 witness: one exogenous column and the target, with a
forecast-horizon gap so that idx 2 is a strict superset of idx 1. -/
def dataC1 : DF :=
  ⟨["ex", "t"], [(0, [1, 10]), (1, [2, 20]), (2, [3, 30]), (3, [4, 40])]⟩

def expC1 : Experiment :=
  { ml_usecase := some MLUsecase.time_series
  , data := some dataC1
  , target_param := some "t"
  , idx := [[0, 1], [2], [2, 3]]
  , fxs_ignore := []
  , fe_exogenous := none
  , pipeline := none
  , pipeline_fully_trained := none
  , setup_ran := true }

theorem C1_witness :
    (expC1.idx.get? 1 = some [2] ∧ expC1.idx.get? 2 = some [2, 3] ∧
     (2 : Nat) ∈ ([2, 3] : List Nat) ∧ ¬ (3 : Nat) ∈ ([2] : List Nat)) ∧
    (((dataC1.filterCols (fun c => ! expC1.fxs_ignore.contains c)).locRows [2]).getCol
        "t").entries.length = ([2] : List Nat).length ∧
    X_test expC1 = .ok (some
        (((dataC1.filterCols (fun c => ! expC1.fxs_ignore.contains c)).locRows [2, 3]).dropCol
          "t")) ∧
    (((dataC1.filterCols (fun c => ! expC1.fxs_ignore.contains c)).locRows [2, 3]).dropCol
        "t").rows.length = ([2, 3] : List Nat).length :=
  ⟨⟨rfl, rfl, by decide, by decide⟩,
   (C1_amended expC1 dataC1 "t" [2] [2, 3] rfl rfl rfl rfl rfl rfl (by decide) (by decide)
     (by decide)).2⟩

theorem guard_spec (tbl : DF) (fe : Option Unit) :
    ((if tbl.empty && fe.isNone then (Except.ok none : Except PyError (Option DF))
        else Except.ok (some tbl)) = Except.ok none
      ↔ (tbl.empty = true ∧ fe = none)) ∧
    (tbl.empty = true → fe.isSome = true →
      (if tbl.empty && fe.isNone then (Except.ok none : Except PyError (Option DF))
        else Except.ok (some tbl)) = Except.ok (some tbl)) := by
  by_cases h : (tbl.empty && fe.isNone) = true
  · rcases (Bool.and_eq_true _ _) ▸ h with ⟨h1, h2⟩
    constructor
    · rw [if_pos h]
      simp [h1, Option.isNone_iff_eq_none.mp h2]
    · intro _ hS
      rw [Option.isNone_iff_eq_none.mp h2] at hS
      cases hS
  · constructor
    · rw [if_neg h]
      constructor
      · intro hh
        simp at hh
      · rintro ⟨h1, h2⟩
        exact absurd (by rw [h1, h2]; rfl) h
    · intro _ _
      rw [if_neg h]

/-- C9: for every time-series experiment (with its target set, as the
time-series branch presumes), each of the X, X_train and X_test accessors
returns None exactly when its computed feature table is empty and no
exogenous-feature generator is configured; when the table is empty but a
generator is configured, the empty-but-present table is returned. -/
theorem C9_theorem (e : Experiment) (d : DF) (t : String) (i0 i2 : List Nat)
    (hts : e.ml_usecase = some MLUsecase.time_series)
    (hd : e.data = some d)
    (ht : e.target_param = some t)
    (hi0 : e.idx.get? 0 = some i0)
    (hi2 : e.idx.get? 2 = some i2) :
    ((X e = .ok none
        ↔ (((d.filterCols (fun c => ! e.fxs_ignore.contains c)).dropCol t).empty = true
           ∧ e.fe_exogenous = none)) ∧
     (((d.filterCols (fun c => ! e.fxs_ignore.contains c)).dropCol t).empty = true →
       e.fe_exogenous.isSome = true →
       X e = .ok (some ((d.filterCols (fun c => ! e.fxs_ignore.contains c)).dropCol t)))) ∧
    ((X_train e = .ok none
        ↔ ((((d.filterCols (fun c => ! e.fxs_ignore.contains c)).locRows i0).dropCol t).empty
            = true ∧ e.fe_exogenous = none)) ∧
     ((((d.filterCols (fun c => ! e.fxs_ignore.contains c)).locRows i0).dropCol t).empty
        = true → e.fe_exogenous.isSome = true →
       X_train e = .ok (some
        (((d.filterCols (fun c => ! e.fxs_ignore.contains c)).locRows i0).dropCol t)))) ∧
    ((X_test e = .ok none
        ↔ ((((d.filterCols (fun c => ! e.fxs_ignore.contains c)).locRows i2).dropCol t).empty
            = true ∧ e.fe_exogenous = none)) ∧
     ((((d.filterCols (fun c => ! e.fxs_ignore.contains c)).locRows i2).dropCol t).empty
        = true → e.fe_exogenous.isSome = true →
       X_test e = .ok (some
        (((d.filterCols (fun c => ! e.fxs_ignore.contains c)).locRows i2).dropCol t)))) := by
  have hnotc : ¬ (some MLUsecase.time_series ≠ some MLUsecase.time_series) :=
    fun hco => hco rfl
  have hXeq : X e = (if ((d.filterCols (fun c => ! e.fxs_ignore.contains c)).dropCol t).empty
      && e.fe_exogenous.isNone then Except.ok none
      else Except.ok (some ((d.filterCols (fun c => ! e.fxs_ignore.contains c)).dropCol t))) := by
    simp only [X, dataset, getData, hd, ok_bind, hts]
    rw [if_neg hnotc]
    simp only [dropTarget, ht, ok_bind]
  have hXtraineq : X_train e
      = (if (((d.filterCols (fun c => ! e.fxs_ignore.contains c)).locRows i0).dropCol t).empty
      && e.fe_exogenous.isNone then Except.ok none
      else Except.ok (some
        (((d.filterCols (fun c => ! e.fxs_ignore.contains c)).locRows i0).dropCol t))) := by
    simp only [X_train, train, dataset, getData, hd, ok_bind, getIdx, hi0, ht, hts]
    rw [if_neg hnotc]
  have hXtesteq : X_test e
      = (if (((d.filterCols (fun c => ! e.fxs_ignore.contains c)).locRows i2).dropCol t).empty
      && e.fe_exogenous.isNone then Except.ok none
      else Except.ok (some
        (((d.filterCols (fun c => ! e.fxs_ignore.contains c)).locRows i2).dropCol t))) := by
    simp only [X_test, hts]
    rw [if_neg hnotc]
    simp only [dataset, getData, hd, ok_bind, getIdx, hi2, dropTarget, ht]
  refine ⟨?_, ?_, ?_⟩
  · rw [hXeq]
    exact guard_spec _ _
  · rw [hXtraineq]
    exact guard_spec _ _
  · rw [hXtesteq]
    exact guard_spec _ _

theorem C9_witness :
    (((dataUni.filterCols (fun c => ! expC1bad.fxs_ignore.contains c)).dropCol "t").empty
        = true ∧ expC1bad.fe_exogenous = none) ∧
    X expC1bad = Except.ok none :=
  ⟨⟨by decide, rfl⟩,
   (C9_theorem expC1bad dataUni "t" [0] [1, 2] rfl rfl rfl rfl rfl).1.1.mpr
     ⟨by decide, rfl⟩⟩

/-- C2: for a time-series experiment, X_test_transformed and
y_test_transformed invoke the dual-output transform helper on the
fully-fitted pipeline over the full data (y, X) and then restrict its
output: the X output is filtered to the rows at idx 2 and the y output to
the rows at idx 1; the train-only transformed views instead use the
train-fitted pipeline on (y_train, X_train) without any restriction. -/
theorem C2_theorem (e : Experiment) (p pf : Pipeline)
    (yv ytr : Option Series) (Xv Xtr : Option DF) (i1 i2 : List Nat)
    (hts : e.ml_usecase = some MLUsecase.time_series)
    (hp : e.pipeline = some p)
    (hpf : e.pipeline_fully_trained = some pf)
    (hy : y e = .ok yv) (hX : X e = .ok Xv)
    (hytr : y_train e = .ok ytr) (hXtr : X_train e = .ok Xtr)
    (hi1 : e.idx.get? 1 = some i1)
    (hi2 : e.idx.get? 2 = some i2) :
    X_test_transformed e = (match (pipeline_transform pf yv Xv).2 with
      | none => Except.ok none
      | some Xd => Except.ok (some (Xd.locRows i2))) ∧
    y_test_transformed e
      = Except.ok (some (((pipeline_transform pf yv Xv).1).locEntries i1)) ∧
    X_train_transformed e = Except.ok ((pipeline_transform p ytr Xtr).2) ∧
    y_train_transformed e = Except.ok (some ((pipeline_transform p ytr Xtr).1)) := by
  have hnotc : ¬ (some MLUsecase.time_series ≠ some MLUsecase.time_series) :=
    fun hco => hco rfl
  refine ⟨?_, ?_, ?_, ?_⟩
  · simp only [X_test_transformed, hts]
    rw [if_neg hnotc]
    simp only [getPipelineFullyTrained, hpf, ok_bind, hy, hX]
    cases hout : (pipeline_transform pf yv Xv).2 with
    | none => rfl
    | some Xd => simp only [getIdx, hi2, ok_bind]
  · simp only [y_test_transformed, hts]
    rw [if_neg hnotc]
    simp only [getPipelineFullyTrained, hpf, ok_bind, hy, hX, getIdx, hi1]
  · simp only [X_train_transformed, hts]
    rw [if_neg hnotc]
    simp only [getPipeline, hp, ok_bind, hytr, hXtr]
  · simp only [y_train_transformed, hts]
    rw [if_neg hnotc]
    simp only [getPipeline, hp, ok_bind, hytr, hXtr]

/-- A concrete pipeline for the C2 witness: the dual transform replaces the
target values and passes the features through. -/
def dualC2 : Pipeline :=
  { transformBoth := fun X0 y0 _ => (X0, y0)
  , transformOnlyX := fun X0 _ => X0
  , transformOnlyY := fun y0 => y0
  , dual := fun _ Xv => (⟨"t", [(0, 100), (1, 200), (2, 300), (3, 400)]⟩, Xv) }

def expC2 : Experiment :=
  { ml_usecase := some MLUsecase.time_series
  , data := some dataC1
  , target_param := some "t"
  , idx := [[0, 1], [2], [2, 3]]
  , fxs_ignore := []
  , fe_exogenous := none
  , pipeline := some dualC2
  , pipeline_fully_trained := some dualC2
  , setup_ran := true }

def yvC2 : Option Series := some ⟨"t", [(0, 10), (1, 20), (2, 30), (3, 40)]⟩

def XvC2 : Option DF := some ⟨["ex"], [(0, [1]), (1, [2]), (2, [3]), (3, [4])]⟩

def ytrC2 : Option Series := some ⟨"t", [(0, 10), (1, 20)]⟩

def XtrC2 : Option DF := some ⟨["ex"], [(0, [1]), (1, [2])]⟩

theorem C2_witness :
    expC2.pipeline_fully_trained = some dualC2 ∧
    y_test_transformed expC2
      = Except.ok (some (((pipeline_transform dualC2 yvC2 XvC2).1).locEntries [2])) ∧
    X_test_transformed expC2
      = (match (pipeline_transform dualC2 yvC2 XvC2).2 with
         | none => Except.ok none
         | some Xd => Except.ok (some (Xd.locRows [2, 3]))) :=
  ⟨rfl,
   (C2_theorem expC2 dualC2 dualC2 yvC2 ytrC2 XvC2 XtrC2 [2] [2, 3]
     rfl rfl rfl rfl rfl rfl rfl rfl rfl).2.1,
   (C2_theorem expC2 dualC2 dualC2 yvC2 ytrC2 XvC2 XtrC2 [2] [2, 3]
     rfl rfl rfl rfl rfl rfl rfl rfl rfl).1⟩

/-- C3: for every non-time-series experiment with target set, the
train_transformed view is the column-wise concatenation of the
X_train_transformed view and the y_train_transformed view (the pipeline is a
fixed function of its inputs, so the two accessor invocations agree). -/
theorem C3_theorem (e : Experiment) (Xt : Option DF) (yt : Option Series)
    (hnts : e.ml_usecase ≠ some MLUsecase.time_series)
    (htg : targetTruthy e.target_param = true)
    (hX : X_train_transformed e = .ok Xt)
    (hy : y_train_transformed e = .ok yt) :
    train_transformed e = .ok (concatXy Xt yt) := by
  simp only [train_transformed]
  rw [if_pos hnts, if_pos htg, hX, ok_bind, hy, ok_bind]

/-- A concrete identity pipeline for the C3 witness. -/
def pC3 : Pipeline :=
  { transformBoth := fun X0 y0 _ => (X0, y0)
  , transformOnlyX := fun X0 _ => X0
  , transformOnlyY := fun y0 => y0
  , dual := fun _ Xv => (⟨"t", []⟩, Xv) }

def expC3 : Experiment :=
  { ml_usecase := some MLUsecase.classification
  , data := some dataC4
  , target_param := some "tgt"
  , idx := [[0, 1], [2]]
  , fxs_ignore := ["ign"]
  , fe_exogenous := none
  , pipeline := some pC3
  , pipeline_fully_trained := none
  , setup_ran := true }

def XtC3 : Option DF := some ⟨["f1"], [(0, [1]), (1, [2])]⟩

def ytC3 : Option Series := some ⟨"tgt", [(0, 10), (1, 20)]⟩

theorem C3_witness :
    targetTruthy expC3.target_param = true ∧
    X_train_transformed expC3 = .ok XtC3 ∧
    y_train_transformed expC3 = .ok ytC3 ∧
    train_transformed expC3 = .ok (concatXy XtC3 ytC3) :=
  ⟨by decide, rfl, rfl, C3_theorem expC3 XtC3 ytC3 (by decide) (by decide) rfl rfl⟩

/-- C6: for every writable name (in the variable-keys set, not a property,
not privately prefixed), set_config followed by get_config returns the
assigned value; set_config on a property name or a privately prefixed name
raises a ValueError and leaves the state unchanged. -/
theorem C6_theorem (e : ConfigState) (k : String) (v : PyObj)
    (hw : (writeable_keys e).contains k = true) :
    ((set_config e (some k) v []).2 = none ∧
     get_config (set_config e (some k) v []).1 k = .ok v) ∧
    (∀ k2 v2, (e.property_keys.contains k2 = true ∨ startsWithUnderscore k2 = true) →
       ((set_config e (some k2) v2 []).1 = e ∧
        isValueErrorOpt (set_config e (some k2) v2 []).2 = true)) := by
  have hwx : ((e.variable_keys.filter (fun x => ! e.property_keys.contains x)).filter
      (fun x => ! startsWithUnderscore x)).contains k = true := hw
  have hmem : k ∈ (e.variable_keys.filter (fun x => ! e.property_keys.contains x)).filter
      (fun x => ! startsWithUnderscore x) := (contains_iff_mem _ _).mp hwx
  have hmem1 : k ∈ e.variable_keys.filter (fun x => ! e.property_keys.contains x) :=
    (List.mem_filter.mp hmem).1
  have hnu : (! startsWithUnderscore k) = true := (List.mem_filter.mp hmem).2
  have hvk : k ∈ e.variable_keys := (List.mem_filter.mp hmem1).1
  have hnp : (! e.property_keys.contains k) = true := (List.mem_filter.mp hmem1).2
  have hs1 : ¬ startsWithUnderscore k = true := by
    intro hh
    rw [hh] at hnu
    simp at hnu
  have hs2 : ¬ (! (writeable_keys e).contains k) = true := by
    rw [hw]
    simp
  have hnp2 : e.property_keys.contains k = false := by
    cases h : e.property_keys.contains k with
    | false => rfl
    | true => rw [h] at hnp; simp at hnp
  have hrun : set_config e (some k) v [] = (setConfigAttr e k v, none) := by
    show set_config_loop e [(k, v)] = _
    simp only [set_config_loop]
    rw [if_neg hs1, if_neg hs2]
  constructor
  · rw [hrun]
    refine ⟨rfl, ?_⟩
    have hmemvk : ((setConfigAttr e k v).variable_keys
        ++ (setConfigAttr e k v).property_keys).contains k = true :=
      (contains_iff_mem _ _).mpr (List.mem_append_left _ hvk)
    have hcond1 : ¬ (! ((setConfigAttr e k v).variable_keys
        ++ (setConfigAttr e k v).property_keys).contains k) = true := by
      rw [hmemvk]
      simp
    have hcond2 : ¬ (setConfigAttr e k v).property_keys.contains k = true := by
      show ¬ e.property_keys.contains k = true
      rw [hnp2]
      simp
    simp only [get_config]
    rw [if_neg hcond1]
    simp only [getattrE]
    rw [if_neg hcond2]
    rw [show (setConfigAttr e k v).attrs = e.attrs.setAttr k v from rfl,
      strdict_get_setAttr_eq]
  · intro k2 v2 hk2
    have hrun2 : set_config e (some k2) v2 [] = set_config_loop e [(k2, v2)] := rfl
    rcases hk2 with hk2 | hk2
    · by_cases hsw : startsWithUnderscore k2 = true
      · rw [hrun2]
        simp only [set_config_loop]
        rw [if_pos hsw]
        exact ⟨rfl, rfl⟩
      · have hnw : ¬ (writeable_keys e).contains k2 = true := by
          intro hc
          have hcx : ((e.variable_keys.filter
              (fun x => ! e.property_keys.contains x)).filter
              (fun x => ! startsWithUnderscore x)).contains k2 = true := hc
          have hm2 : k2 ∈ (e.variable_keys.filter
              (fun x => ! e.property_keys.contains x)).filter
              (fun x => ! startsWithUnderscore x) := (contains_iff_mem _ _).mp hcx
          have hx := (List.mem_filter.mp (List.mem_filter.mp hm2).1).2
          rw [hk2] at hx
          simp at hx
        have hcond : (! (writeable_keys e).contains k2) = true := by
          cases h : (writeable_keys e).contains k2 with
          | false => rfl
          | true => exact absurd h hnw
        rw [hrun2]
        simp only [set_config_loop]
        rw [if_neg hsw, if_pos hcond]
        exact ⟨rfl, rfl⟩
    · rw [hrun2]
      simp only [set_config_loop]
      rw [if_pos hk2]
      exact ⟨rfl, rfl⟩

/-- C10: set_config with several keyword arguments validates and assigns the
pairs one at a time, so when a later pair names a read-only or unknown
variable, the ValueError is raised with the earlier writable assignment
already performed and still in place. -/
theorem C10_theorem (e : ConfigState) (k1 k2 : String) (v1 v2 : PyObj)
    (h1 : (writeable_keys e).contains k1 = true)
    (h2 : startsWithUnderscore k2 = true ∨ (writeable_keys e).contains k2 = false) :
    (set_config e none PyObj.pynone [(k1, v1), (k2, v2)]).1 = setConfigAttr e k1 v1 ∧
    (set_config e none PyObj.pynone [(k1, v1), (k2, v2)]).1.attrs.get k1 = some v1 ∧
    isValueErrorOpt (set_config e none PyObj.pynone [(k1, v1), (k2, v2)]).2 = true := by
  have h1x : ((e.variable_keys.filter (fun x => ! e.property_keys.contains x)).filter
      (fun x => ! startsWithUnderscore x)).contains k1 = true := h1
  have hmem : k1 ∈ (e.variable_keys.filter (fun x => ! e.property_keys.contains x)).filter
      (fun x => ! startsWithUnderscore x) := (contains_iff_mem _ _).mp h1x
  have hs1 : ¬ startsWithUnderscore k1 = true := by
    have hx := (List.mem_filter.mp hmem).2
    intro hh
    rw [hh] at hx
    simp at hx
  have hs2 : ¬ (! (writeable_keys e).contains k1) = true := by
    rw [h1]
    simp
  have hw2 : writeable_keys (setConfigAttr e k1 v1) = writeable_keys e := rfl
  rcases h2 with hh | hh
  · have hres : set_config e none PyObj.pynone [(k1, v1), (k2, v2)]
        = (setConfigAttr e k1 v1, some (PyError.valueError "variable is read only")) := by
      show set_config_loop e [(k1, v1), (k2, v2)] = _
      simp only [set_config_loop]
      rw [if_neg hs1, if_neg hs2, if_pos hh]
    rw [hres]
    exact ⟨rfl, strdict_get_setAttr_eq e.attrs k1 v1, rfl⟩
  · by_cases hsw : startsWithUnderscore k2 = true
    · have hres : set_config e none PyObj.pynone [(k1, v1), (k2, v2)]
          = (setConfigAttr e k1 v1, some (PyError.valueError "variable is read only")) := by
        show set_config_loop e [(k1, v1), (k2, v2)] = _
        simp only [set_config_loop]
        rw [if_neg hs1, if_neg hs2, if_pos hsw]
      rw [hres]
      exact ⟨rfl, strdict_get_setAttr_eq e.attrs k1 v1, rfl⟩
    · have hcond : (! (writeable_keys (setConfigAttr e k1 v1)).contains k2) = true := by
        rw [hw2, hh]
        rfl
      have hres : set_config e none PyObj.pynone [(k1, v1), (k2, v2)]
          = (setConfigAttr e k1 v1,
             some (PyError.valueError "variable not found or is not writeable")) := by
        show set_config_loop e [(k1, v1), (k2, v2)] = _
        simp only [set_config_loop]
        rw [if_neg hs1, if_neg hs2, if_neg hsw, if_pos hcond]
      rw [hres]
      exact ⟨rfl, strdict_get_setAttr_eq e.attrs k1 v1, rfl⟩

/-- A small configuration face: seed and n_jobs_param are writable plain
attributes, X_train is a registered variable key that is also a property. -/
def cfgW : ConfigState :=
  { variable_keys := ["seed", "X_train", "n_jobs_param"]
  , property_keys := ["X_train"]
  , attrs := [("seed", PyObj.atom 1), ("n_jobs_param", PyObj.atom (-1))]
  , props := fun _ => PyObj.pynone }

theorem C6_witness :
    (writeable_keys cfgW).contains "seed" = true ∧
    get_config (set_config cfgW (some "seed") (PyObj.atom 7) []).1 "seed"
      = .ok (PyObj.atom 7) ∧
    (set_config cfgW (some "X_train") (PyObj.atom 3) []).1 = cfgW ∧
    isValueErrorOpt (set_config cfgW (some "X_train") (PyObj.atom 3) []).2 = true :=
  ⟨by decide,
   (C6_theorem cfgW "seed" (PyObj.atom 7) (by decide)).1.2,
   ((C6_theorem cfgW "seed" (PyObj.atom 7) (by decide)).2 "X_train" (PyObj.atom 3)
     (Or.inl (by decide))).1,
   ((C6_theorem cfgW "seed" (PyObj.atom 7) (by decide)).2 "X_train" (PyObj.atom 3)
     (Or.inl (by decide))).2⟩

theorem C10_witness :
    (writeable_keys cfgW).contains "seed" = true ∧
    (writeable_keys cfgW).contains "X_train" = false ∧
    (set_config cfgW none PyObj.pynone
        [("seed", PyObj.atom 5), ("X_train", PyObj.atom 6)]).1.attrs.get "seed"
      = some (PyObj.atom 5) ∧
    isValueErrorOpt (set_config cfgW none PyObj.pynone
        [("seed", PyObj.atom 5), ("X_train", PyObj.atom 6)]).2 = true :=
  ⟨by decide, by decide,
   (C10_theorem cfgW "seed" "X_train" (PyObj.atom 5) (PyObj.atom 6) (by decide)
     (Or.inr (by decide))).2.1,
   (C10_theorem cfgW "seed" "X_train" (PyObj.atom 5) (PyObj.atom 6) (by decide)
     (Or.inr (by decide))).2.2⟩

/-- The instance state right after construction, before any setup run. -/
def freshExperiment : Experiment :=
  { ml_usecase := none
  , data := none
  , target_param := none
  , idx := [[], []]
  , fxs_ignore := []
  , fe_exogenous := none
  , pipeline := none
  , pipeline_fully_trained := none
  , setup_ran := false }

/-- C7 counterexample: on a freshly constructed experiment (setup not run)
the dataset accessor does raise, but the raised error is an AttributeError
(self.data is None), not a RuntimeError-class error. -/
theorem C7_counterexample :
    freshExperiment.setup_ran = false ∧
    isErrorResult (dataset freshExperiment) = true ∧
    isRuntimeErrorResult (dataset freshExperiment) = false :=
  ⟨rfl, rfl, rfl⟩

/-- C7 (amended): on an experiment in its pre-setup state (data, pipeline,
usecase and target still None), every view accessor that touches the raw
data or the pipeline (dataset, train, test, X, X_train, X_test and every
transformed view) raises an error that propagates, but it is an
AttributeError from the None attributes, never a RuntimeError; the target
views y, y_train and y_test do not raise at all — their target guard fails
first and they return None silently; the RuntimeError of the spec is raised
only by the _check_setup_ran helper, which no view accessor invokes. -/
theorem C7_amended (e : Experiment)
    (hu : e.ml_usecase = none) (hd : e.data = none) (ht : e.target_param = none)
    (hp : e.pipeline = none) (hs : e.setup_ran = false) :
    (isErrorResult (dataset e) = true ∧ isRuntimeErrorResult (dataset e) = false) ∧
    (isErrorResult (train e) = true ∧ isRuntimeErrorResult (train e) = false) ∧
    (isErrorResult (test e) = true ∧ isRuntimeErrorResult (test e) = false) ∧
    (isErrorResult (X e) = true ∧ isRuntimeErrorResult (X e) = false) ∧
    (isErrorResult (X_train e) = true ∧ isRuntimeErrorResult (X_train e) = false) ∧
    (isErrorResult (X_test e) = true ∧ isRuntimeErrorResult (X_test e) = false) ∧
    y e = .ok none ∧
    y_train e = .ok none ∧
    y_test e = .ok none ∧
    (isErrorResult (X_train_transformed e) = true
      ∧ isRuntimeErrorResult (X_train_transformed e) = false) ∧
    (isErrorResult (y_train_transformed e) = true
      ∧ isRuntimeErrorResult (y_train_transformed e) = false) ∧
    (isErrorResult (X_test_transformed e) = true
      ∧ isRuntimeErrorResult (X_test_transformed e) = false) ∧
    (isErrorResult (y_test_transformed e) = true
      ∧ isRuntimeErrorResult (y_test_transformed e) = false) ∧
    (isErrorResult (train_transformed e) = true
      ∧ isRuntimeErrorResult (train_transformed e) = false) ∧
    check_setup_ran e = .error (.runtimeError
      "This function requires the users to run setup first.") := by
  have hne : e.ml_usecase ≠ some MLUsecase.time_series := by
    rw [hu]
    exact fun h => Option.noConfusion h
  have hds : dataset e
      = Except.error (PyError.attributeError "NoneType object has no attribute columns") := by
    simp only [dataset, getData, hd, error_bind]
  have htr : train e
      = Except.error (PyError.attributeError "NoneType object has no attribute columns") := by
    simp only [train, hds, error_bind]
  have hte : test e
      = Except.error (PyError.attributeError "NoneType object has no attribute columns") := by
    simp only [test, hds, error_bind]
  have hX : X e
      = Except.error (PyError.attributeError "NoneType object has no attribute columns") := by
    simp only [X, hds, error_bind]
  have hXtr : X_train e
      = Except.error (PyError.attributeError "NoneType object has no attribute columns") := by
    simp only [X_train, htr, error_bind]
  have hXte : X_test e
      = Except.error (PyError.attributeError "NoneType object has no attribute columns") := by
    simp only [X_test]
    rw [if_pos hne]
    simp only [hte, error_bind]
  have hy : y e = .ok none := by
    simp only [y, ht, targetIfTruthy]
  have hytr : y_train e = .ok none := by
    simp only [y_train, ht, targetIfTruthy]
  have hyte : y_test e = .ok none := by
    simp only [y_test]
    rw [if_pos hne]
    simp only [ht, targetIfTruthy]
  have hpl : getPipeline e
      = Except.error (PyError.attributeError "NoneType object has no attribute transform") := by
    simp only [getPipeline, hp]
  have hXtt : X_train_transformed e
      = Except.error (PyError.attributeError "NoneType object has no attribute transform") := by
    simp only [X_train_transformed]
    rw [if_pos hne]
    simp only [ht, targetIfTruthy, hpl, error_bind]
  have hytt : y_train_transformed e
      = Except.error (PyError.attributeError "NoneType object has no attribute transform") := by
    simp only [y_train_transformed]
    rw [if_pos hne]
    simp only [hpl, error_bind]
  have hXtet : X_test_transformed e
      = Except.error (PyError.attributeError "NoneType object has no attribute transform") := by
    simp only [X_test_transformed]
    rw [if_pos hne]
    simp only [hpl, error_bind]
  have hytet : y_test_transformed e
      = Except.error (PyError.attributeError "NoneType object has no attribute transform") := by
    simp only [y_test_transformed]
    rw [if_pos hne]
    simp only [hpl, error_bind]
  have hng : ¬ targetTruthy e.target_param = true := by
    rw [ht]
    simp [targetTruthy]
  have htt : train_transformed e
      = Except.error (PyError.attributeError "NoneType object has no attribute transform") := by
    simp only [train_transformed]
    rw [if_pos hne, if_neg hng]
    exact hXtt
  refine ⟨?_, ?_, ?_, ?_, ?_, ?_, hy, hytr, hyte, ?_, ?_, ?_, ?_, ?_, ?_⟩
  · rw [hds]; exact ⟨rfl, rfl⟩
  · rw [htr]; exact ⟨rfl, rfl⟩
  · rw [hte]; exact ⟨rfl, rfl⟩
  · rw [hX]; exact ⟨rfl, rfl⟩
  · rw [hXtr]; exact ⟨rfl, rfl⟩
  · rw [hXte]; exact ⟨rfl, rfl⟩
  · rw [hXtt]; exact ⟨rfl, rfl⟩
  · rw [hytt]; exact ⟨rfl, rfl⟩
  · rw [hXtet]; exact ⟨rfl, rfl⟩
  · rw [hytet]; exact ⟨rfl, rfl⟩
  · rw [htt]; exact ⟨rfl, rfl⟩
  · simp only [check_setup_ran, hs]
    rfl

theorem C7_witness :
    freshExperiment.data = none ∧ freshExperiment.pipeline = none ∧
    isErrorResult (train freshExperiment) = true ∧
    isRuntimeErrorResult (train freshExperiment) = false ∧
    y freshExperiment = .ok none ∧
    check_setup_ran freshExperiment = .error (.runtimeError
      "This function requires the users to run setup first.") :=
  ⟨rfl, rfl,
   (C7_amended freshExperiment rfl rfl rfl rfl rfl).2.1.1,
   (C7_amended freshExperiment rfl rfl rfl rfl rfl).2.1.2,
   (C7_amended freshExperiment rfl rfl rfl rfl rfl).2.2.2.2.2.2.1,
   (C7_amended freshExperiment rfl rfl rfl rfl
     rfl).2.2.2.2.2.2.2.2.2.2.2.2.2.2⟩

/-- An unsupervised (clustering) experiment with a fitted identity pipeline. -/
def expC8 : Experiment :=
  { ml_usecase := some MLUsecase.clustering
  , data := some ⟨["f1"], [(0, [1]), (1, [2])]⟩
  , target_param := none
  , idx := [[0], [1]]
  , fxs_ignore := []
  , fe_exogenous := none
  , pipeline := some pC3
  , pipeline_fully_trained := none
  , setup_ran := true }

/-- C8 counterexample: on an unsupervised experiment, y_test_transformed
returns None silently (y_test is None, the pipeline is invoked with neither
input and its result forwarded), rather than failing fast with an error. -/
theorem C8_counterexample :
    expC8.target_param = none ∧
    y_test_transformed expC8 = Except.ok none ∧
    isErrorResult (y_test_transformed expC8) = false :=
  ⟨rfl, rfl, rfl⟩

/-- C8 (amended): on an unsupervised non-time-series experiment the code
performs no fail-fast check: y_test_transformed forwards y=None to the
pipeline and returns None silently, while y_train_transformed indexes the
X-only pipeline output with the subscript 1 and so fails with a KeyError —
a subscript error, not a descriptive unsupervised-target error. -/
theorem C8_amended (e : Experiment) (d : DF) (p : Pipeline) (i0 i1 : List Nat)
    (hnts : e.ml_usecase ≠ some MLUsecase.time_series)
    (ht : e.target_param = none)
    (hp : e.pipeline = some p)
    (hd : e.data = some d)
    (hi0 : e.idx.get? 0 = some i0)
    (hi1 : e.idx.get? 1 = some i1) :
    y_test_transformed e = .ok none ∧
    y_train_transformed e = .error (.keyError "1") := by
  have hok : getPipeline e = .ok p := by simp only [getPipeline, hp]
  constructor
  · have hyt : y_test e = .ok none := by
      simp only [y_test]
      rw [if_pos hnts]
      simp only [ht, targetIfTruthy]
    simp only [y_test_transformed]
    rw [if_pos hnts]
    simp only [hok, ok_bind, hyt, Pipeline.transform, TOut.asYView]
  · have hXt : X_train e
        = .ok (some ((d.filterCols (fun c => ! e.fxs_ignore.contains c)).locRows i0)) := by
      simp only [X_train, train, dataset, getData, hd, ok_bind, getIdx, hi0, ht]
      rw [if_pos hnts]
    have hyt2 : y_train e = .ok none := by
      simp only [y_train, ht, targetIfTruthy]
    simp only [y_train_transformed]
    rw [if_pos hnts]
    simp only [hok, ok_bind, hXt, hyt2, Pipeline.transform, TOut.sub1]

theorem C8_witness :
    expC8.target_param = none ∧
    y_test_transformed expC8 = .ok none ∧
    y_train_transformed expC8 = .error (.keyError "1") :=
  ⟨rfl,
   (C8_amended expC8 ⟨["f1"], [(0, [1]), (1, [2])]⟩ pC3 [0] [1] (by decide) rfl rfl rfl
     rfl rfl).1,
   (C8_amended expC8 ⟨["f1"], [(0, [1]), (1, [2])]⟩ pC3 [0] [1] (by decide) rfl rfl rfl
     rfl rfl).2⟩
